import Mathlib

/-!
Shallow embedding of the physics/animation core of the relativity-viz
repository (src/components/RelativityVisualizer.js and the unnamed duplicate
implementation).  JavaScript floating-point arithmetic is modelled over the
real numbers; Math.sqrt, Math.exp, Math.cos, Math.sin become Real.sqrt,
Real.exp, Real.cos, Real.sin.  Math.random() draws are modelled as injected
oracle arguments, so every theorem quantifies over all possible draws.
Situations where the JavaScript code would produce NaN or Infinity are
tracked explicitly through the sign of the radicand of a square root or
through the nonvanishing of a denominator.
-/

namespace RelViz

/-- The fixed visualization scale factor, SCALE_FACTOR = 0.1 in the source. -/
noncomputable def SCALE_FACTOR : ℝ := 0.1

/-- Radicand of the time-dilation square root: the source computes
timeDilation as 1 / Math.sqrt (1 - 2 * potential * SCALE_FACTOR); this is
the expression under the root.  In JavaScript a negative radicand makes the
whole expression NaN. -/
noncomputable def tdRadicand (potential : ℝ) : ℝ := 1 - 2 * potential * SCALE_FACTOR

/-- The redshift formula of the source (line
`const redshift = Math.sqrt((1 - 2 * potential2 * s) / (1 - 2 * potential1 * s)) - 1`),
with the scale factor kept as a parameter. -/
noncomputable def redshiftFormula (potentialA potentialB s : ℝ) : ℝ :=
  Real.sqrt ((1 - 2 * potentialB * s) / (1 - 2 * potentialA * s)) - 1

/-- Per-observer block of the record returned by calculateRelativisticEffects. -/
structure ObserverData where
  x : ℝ
  y : ℝ
  r : ℝ
  potential : ℝ
  timeDilation : ℝ
  escapeVelocity : ℝ

/-- The record returned by calculateRelativisticEffects. -/
structure Effects where
  observer1 : ObserverData
  observer2 : ObserverData
  relativeTimeDilation : ℝ
  lightTravelTime : ℝ
  redshift : ℝ
  spaceContraction1 : ℝ
  spaceContraction2 : ℝ
  distance : ℝ

/-- Faithful translation of calculateRelativisticEffects from the source.
The function is total: it performs no input validation and has no error
channel, exactly like the JavaScript function. -/
noncomputable def calculateRelativisticEffects
    (mass observer1Position observer2Position observer2Angle : ℝ) : Effects :=
  let angleRad := observer2Angle * Real.pi / 180
  let x2 := observer2Position * Real.cos angleRad
  let y2 := observer2Position * Real.sin angleRad
  let r1 := observer1Position
  let r2 := observer2Position
  let potential1 := mass / r1
  let potential2 := mass / r2
  let timeDilation1 := 1 / Real.sqrt (tdRadicand potential1)
  let timeDilation2 := 1 / Real.sqrt (tdRadicand potential2)
  let relativeTimeDilation := timeDilation2 / timeDilation1
  let spaceContraction1 := Real.sqrt (tdRadicand potential1)
  let spaceContraction2 := Real.sqrt (tdRadicand potential2)
  let distance := Real.sqrt (r1 * r1 + r2 * r2 - 2 * r1 * r2 * Real.cos angleRad)
  let lightTravelTime := distance * (1 + (potential1 + potential2) / 2 * SCALE_FACTOR)
  let redshift := redshiftFormula potential1 potential2 SCALE_FACTOR
  let escapeVelocity1 := Real.sqrt (2 * potential1 * SCALE_FACTOR)
  let escapeVelocity2 := Real.sqrt (2 * potential2 * SCALE_FACTOR)
  { observer1 := ⟨observer1Position, 0, r1, potential1, timeDilation1, escapeVelocity1⟩
    observer2 := ⟨x2, y2, r2, potential2, timeDilation2, escapeVelocity2⟩
    relativeTimeDilation := relativeTimeDilation
    lightTravelTime := lightTravelTime
    redshift := redshift
    spaceContraction1 := spaceContraction1
    spaceContraction2 := spaceContraction2
    distance := distance }

/-- Numeric/attribution content of the time-dilation sentence of generateFacts:
which observer is reported as having the slower clock, and the percentage
printed in the sentence (the source takes Math.abs in the flipped branch). -/
structure TimeDilationFact where
  slowerObserver : ℕ
  percent : ℝ

/-- Numeric/attribution content of the redshift sentence of generateFacts. -/
structure RedshiftFact where
  redshiftedObserver : ℕ
  percent : ℝ

/-- Branching of the timeDilationFact string in generateFacts: if
relativeTimeDilation > 1 the sentence says Observer 2 is slower by
(rel - 1) * 100 percent, otherwise Observer 1 is slower by the absolute
value of that percentage. -/
noncomputable def timeDilationFactOf (effects : Effects) : TimeDilationFact :=
  if 1 < effects.relativeTimeDilation then
    ⟨2, (effects.relativeTimeDilation - 1) * 100⟩
  else
    ⟨1, |(effects.relativeTimeDilation - 1) * 100|⟩

/-- Branching of the redshiftFact string in generateFacts: if redshift > 0
light from Observer 2 is reported redshifted by redshift * 100 percent,
otherwise light from Observer 1 by the absolute value of that percentage. -/
noncomputable def redshiftFactOf (effects : Effects) : RedshiftFact :=
  if 0 < effects.redshift then
    ⟨2, effects.redshift * 100⟩
  else
    ⟨1, |effects.redshift * 100|⟩

/-- Kerr outer-horizon coordinate rPlus of renderExtremeObjects. -/
noncomputable def kerrRPlus (mass spin : ℝ) : ℝ :=
  mass + Real.sqrt (mass * mass - spin * spin)

/-- Kerr inner-horizon coordinate rMinus of renderExtremeObjects (computed by
the source, not drawn). -/
noncomputable def kerrRMinus (mass spin : ℝ) : ℝ :=
  mass - Real.sqrt (mass * mass - spin * spin)

/-- The rendered Kerr event-horizon radius: rPlus scaled by SCALE_FACTOR. -/
noncomputable def kerrHorizonRadius (mass spin : ℝ) : ℝ :=
  kerrRPlus mass spin * SCALE_FACTOR

/-- The decaying-orbit separation law shared by updateWaves and the merger
branch of renderExtremeObjects:
separation(t) = max(minSeparation, d0 * exp(-t * k)). -/
noncomputable def separationLaw (minSeparation d0 k t : ℝ) : ℝ :=
  max minSeparation (d0 * Real.exp (-t * k))

/-- Source separation of updateWaves:
`const distance = Math.max(2, initialDistance * Math.exp(-time * decayRate))`
with initialDistance = 10 and decayRate = 0.03. -/
noncomputable def updateWavesSourceDistance (time : ℝ) : ℝ :=
  max 2 (10 * Real.exp (-time * 0.03))

/-- Orbital angle of the two wave sources in updateWaves:
`const orbitAngle = time * orbitFreq` with orbitFreq = 0.05. -/
noncomputable def updateWavesOrbitAngle (time : ℝ) : ℝ := time * 0.05

/-- The binary-orbit state (separation, orbital angle) of updateWaves as a
function of elapsedTime alone. -/
noncomputable def updateWavesOrbitState (time : ℝ) : ℝ × ℝ :=
  (updateWavesSourceDistance time, updateWavesOrbitAngle time)

/-- Separation in the merger branch of renderExtremeObjects:
`const separation = Math.max(5, initialSeparation * Math.exp(-time * decayRate))`
with initialSeparation = 40 and decayRate = 0.03. -/
noncomputable def mergerSeparation (time : ℝ) : ℝ :=
  max 5 (40 * Real.exp (-time * 0.03))

/-- A particle of the particle integrator, matching the object literal of the
source: position, velocity, trail of past positions, and the visual
attributes color (modelled by the numeric argument the source passes to the
color interpolator) and size. -/
structure Particle where
  x : ℝ
  y : ℝ
  vx : ℝ
  vy : ℝ
  trail : List (ℝ × ℝ)
  color : ℝ
  size : ℝ

/-- One step of updateParticles on a single particle.  rA, rD, rS are the
three Math.random() draws the source would consume if the respawn branch is
taken (angle, distance and speed randomization).  The respawn branch keeps
color and size of the absorbed particle, clears the trail and resamples
position and velocity; the orbiting branch applies the gravitational force,
an optional frame-dragging term, an explicit Euler update, and pushes the old
position on the trail, dropping the oldest entry when the trail exceeds 20. -/
noncomputable def updateParticle (rA rD rS dt centralMass rotation particleSpeed : ℝ)
    (particle : Particle) : Particle :=
  let r := Real.sqrt (particle.x * particle.x + particle.y * particle.y)
  let eventHorizon := 2 * centralMass * SCALE_FACTOR
  if r < eventHorizon then
    let angle := rA * 2 * Real.pi
    let distance := 10 + rD * 40
    let newX := distance * Real.cos angle
    let newY := distance * Real.sin angle
    let speed := particleSpeed * (0.8 + 0.4 * rS)
    { x := newX
      y := newY
      vx := -newY * speed / Real.sqrt (newX * newX + newY * newY)
      vy := newX * speed / Real.sqrt (newX * newX + newY * newY)
      trail := []
      color := particle.color
      size := particle.size }
  else
    let forceMagnitude := centralMass / (r * r)
    let forceX := -particle.x * forceMagnitude / r
    let forceY := -particle.y * forceMagnitude / r
    let frameX := if 0 < rotation then -particle.y * (rotation * centralMass / (r * r * r) * 0.2) else 0
    let frameY := if 0 < rotation then particle.x * (rotation * centralMass / (r * r * r) * 0.2) else 0
    let newVx := particle.vx + (forceX + frameX) * dt
    let newVy := particle.vy + (forceY + frameY) * dt
    let trail1 := particle.trail ++ [(particle.x, particle.y)]
    { x := particle.x + newVx * dt
      y := particle.y + newVy * dt
      vx := newVx
      vy := newVy
      trail := if 20 < trail1.length then trail1.tail else trail1
      color := particle.color
      size := particle.size }

/-- Helper for updateParticles: maps updateParticle over the list, feeding
each particle the random draws of the oracle rng at its position index k.
This models the sequential Math.random() stream of the source. -/
noncomputable def updateParticlesFrom (rng : ℕ → ℝ × ℝ × ℝ)
    (dt centralMass rotation particleSpeed : ℝ) : ℕ → List Particle → List Particle
  | _, [] => []
  | k, p :: rest =>
      updateParticle (rng k).1 (rng k).2.1 (rng k).2.2 dt centralMass rotation particleSpeed p ::
        updateParticlesFrom rng dt centralMass rotation particleSpeed (k + 1) rest

/-- One step of the particle integrator: updateParticles(particles, dt,
centralMass, rotation) of the source, with the Math.random() stream supplied
as the oracle rng. -/
noncomputable def updateParticles (rng : ℕ → ℝ × ℝ × ℝ) (particles : List Particle)
    (dt centralMass rotation particleSpeed : ℝ) : List Particle :=
  updateParticlesFrom rng dt centralMass rotation particleSpeed 0 particles

/-- n iterated steps of updateParticles, with a fresh random oracle rngs i
for step i, as the animation loop performs one step per frame. -/
noncomputable def updateParticlesIter (rngs : ℕ → ℕ → ℝ × ℝ × ℝ)
    (dt centralMass rotation particleSpeed : ℝ) : ℕ → List Particle → List Particle
  | 0, particles => particles
  | n + 1, particles =>
      updateParticlesIter rngs dt centralMass rotation particleSpeed n
        (updateParticles (rngs n) particles dt centralMass rotation particleSpeed)

/-- One particle of initParticles: rA, rD, rS, rZ are the four Math.random()
draws (angle, distance, speed, size); i is the particle index, whose
normalized value i / particleCount the source passes to the rainbow color
interpolator.  The trail starts empty. -/
noncomputable def initParticle (rA rD rS rZ : ℝ) (particleCount : ℕ) (particleSpeed : ℝ)
    (i : ℕ) : Particle :=
  let angle := rA * 2 * Real.pi
  let distance := 10 + rD * 40
  let x := distance * Real.cos angle
  let y := distance * Real.sin angle
  let speed := particleSpeed * (0.8 + 0.4 * rS)
  { x := x
    y := y
    vx := -y * speed / Real.sqrt (x * x + y * y)
    vy := x * speed / Real.sqrt (x * x + y * y)
    trail := []
    color := (i : ℝ) / (particleCount : ℝ)
    size := 1 + rZ * 2 }

/-- initParticles of the source with the Math.random() stream supplied as an
oracle indexed by particle number. -/
noncomputable def initParticles (rng : ℕ → ℝ × ℝ × ℝ × ℝ) (particleCount : ℕ)
    (particleSpeed : ℝ) : List Particle :=
  (List.range particleCount).map fun i =>
    initParticle (rng i).1 (rng i).2.1 (rng i).2.2.1 (rng i).2.2.2 particleCount particleSpeed i

/-- One sample point of a traced light ray or of the spacetime grid. -/
structure PathPoint where
  x : ℝ
  y : ℝ
  z : ℝ

/-- Magnitude of the velocity of a light ray after the force and rotation
updates of one step of calculateLightPaths, before renormalization.  x1, y1
are the already-updated position; vx, vy the incoming velocity. -/
noncomputable def rayVMag (mass rotation x1 y1 vx vy : ℝ) : ℝ :=
  let r := Real.sqrt (x1 * x1 + y1 * y1)
  let vxa := vx - x1 * (mass / (r * r * r))
  let vya := vy - y1 * (mass / (r * r * r))
  let vxb := if 0 < rotation then vxa + -y1 * (rotation * mass / (r * r * r) * 0.2) else vxa
  let vyb := if 0 < rotation then vya + x1 * (rotation * mass / (r * r * r) * 0.2) else vya
  Real.sqrt (vxb * vxb + vyb * vyb)

/-- Velocity of a light ray after one step of calculateLightPaths: force
update, optional rotation term, then renormalization to magnitude 0.5
(the fixed "speed of light" of the tracer). -/
noncomputable def rayVelocityUpdate (mass rotation x1 y1 vx vy : ℝ) : ℝ × ℝ :=
  let r := Real.sqrt (x1 * x1 + y1 * y1)
  let vxa := vx - x1 * (mass / (r * r * r))
  let vya := vy - y1 * (mass / (r * r * r))
  let vxb := if 0 < rotation then vxa + -y1 * (rotation * mass / (r * r * r) * 0.2) else vxa
  let vyb := if 0 < rotation then vya + x1 * (rotation * mass / (r * r * r) * 0.2) else vya
  (vxb / rayVMag mass rotation x1 y1 vx vy * 0.5,
   vyb / rayVMag mass rotation x1 y1 vx vy * 0.5)

/-- The inner loop of calculateLightPaths: each step advances the position by
the velocity, breaks without emitting a sample when the radius drops below
2.5 (the simplified event horizon), and otherwise updates the velocity,
renormalizes it and emits the sample (x, y, -mass / r).  The fuel argument is
the remaining step budget (100 at the start). -/
noncomputable def rayLoop (mass rotation : ℝ) : ℕ → ℝ → ℝ → ℝ → ℝ → List PathPoint
  | 0, _, _, _, _ => []
  | fuel + 1, x, y, vx, vy =>
    if Real.sqrt ((x + vx) * (x + vx) + (y + vy) * (y + vy)) < 2.5 then []
    else
      ⟨x + vx, y + vy, -mass / Real.sqrt ((x + vx) * (x + vx) + (y + vy) * (y + vy))⟩ ::
        rayLoop mass rotation fuel (x + vx) (y + vy)
          (rayVelocityUpdate mass rotation (x + vx) (y + vy) vx vy).1
          (rayVelocityUpdate mass rotation (x + vx) (y + vy) vx vy).2

/-- Definedness predicate for rayLoop, mirroring its recursion: it demands
that every division the JavaScript loop performs while producing its emitted
samples has a nonzero denominator (the radius r used in -mass / r and in
mass / (r*r*r), and the velocity magnitude vMag used for renormalization).
When it holds, the JavaScript computation produces no NaN before truncation. -/
noncomputable def rayLoopDefined (mass rotation : ℝ) : ℕ → ℝ → ℝ → ℝ → ℝ → Prop
  | 0, _, _, _, _ => True
  | fuel + 1, x, y, vx, vy =>
    if Real.sqrt ((x + vx) * (x + vx) + (y + vy) * (y + vy)) < 2.5 then True
    else
      Real.sqrt ((x + vx) * (x + vx) + (y + vy) * (y + vy)) ≠ 0 ∧
      rayVMag mass rotation (x + vx) (y + vy) vx vy ≠ 0 ∧
      rayLoopDefined mass rotation fuel (x + vx) (y + vy)
        (rayVelocityUpdate mass rotation (x + vx) (y + vy) vx vy).1
        (rayVelocityUpdate mass rotation (x + vx) (y + vy) vx vy).2

/-- One traced light ray of calculateLightPaths: the starting sample at the
source circle followed by up to 100 loop samples.  The initial velocity
points inward with magnitude 0.5. -/
noncomputable def calculateLightPath (mass rotation sourceDistance angle : ℝ) : List PathPoint :=
  let x0 := sourceDistance * Real.cos angle
  let y0 := sourceDistance * Real.sin angle
  ⟨x0, y0, -mass / Real.sqrt (x0 * x0 + y0 * y0)⟩ ::
    rayLoop mass rotation 100 x0 y0 (-Real.cos angle * 0.5) (-Real.sin angle * 0.5)

/-- calculateLightPaths of the source: numPaths rays at evenly spaced angles
from the source circle of radius sourceDistance (observer1Position). -/
noncomputable def calculateLightPaths (mass rotation sourceDistance : ℝ)
    (numPaths : ℕ) : List (List PathPoint) :=
  (List.range numPaths).map fun i =>
    calculateLightPath mass rotation sourceDistance ((i : ℝ) * (2 * Real.pi) / (numPaths : ℝ))

/-- Definedness of a whole traced ray: the starting sample's radius divisor
is nonzero and the loop is defined. -/
noncomputable def calculateLightPathDefined (mass rotation sourceDistance angle : ℝ) : Prop :=
  Real.sqrt ((sourceDistance * Real.cos angle) * (sourceDistance * Real.cos angle) +
      (sourceDistance * Real.sin angle) * (sourceDistance * Real.sin angle)) ≠ 0 ∧
  rayLoopDefined mass rotation 100 (sourceDistance * Real.cos angle)
    (sourceDistance * Real.sin angle) (-Real.cos angle * 0.5) (-Real.sin angle * 0.5)

/-- Closed form of the samples produced by rayLoop for mass 10, rotation 0,
from a radially infalling state at radius c along direction angle: samples at
radii c - 0.5, c - 1, ... until the radius would drop below 2.5. -/
noncomputable def radialSamples (angle : ℝ) : ℕ → ℝ → List PathPoint
  | 0, _ => []
  | fuel + 1, c =>
    if c - 0.5 < 2.5 then []
    else
      ⟨(c - 0.5) * Real.cos angle, (c - 0.5) * Real.sin angle, -10 / (c - 0.5)⟩ ::
        radialSamples angle fuel (c - 0.5)

/-- A fixed Effects record used to witness the sign-flip branches of the
fact generator. -/
noncomputable def testEffects : Effects :=
  { observer1 := ⟨0, 0, 0, 0, 0, 0⟩
    observer2 := ⟨0, 0, 0, 0, 0, 0⟩
    relativeTimeDilation := 1 / 2
    lightTravelTime := 0
    redshift := -(1 / 2)
    spaceContraction1 := 0
    spaceContraction2 := 0
    distance := 0 }

lemma updateParticlesFrom_length (rng : ℕ → ℝ × ℝ × ℝ) (dt cm rot ps : ℝ) :
    ∀ (k : ℕ) (l : List Particle),
      (updateParticlesFrom rng dt cm rot ps k l).length = l.length := by
  intro k l
  induction l generalizing k with
  | nil => simp [updateParticlesFrom]
  | cons p rest ih => simp [updateParticlesFrom, ih]

lemma updateParticle_color_size (rA rD rS dt cm rot ps : ℝ) (p : Particle) :
    (updateParticle rA rD rS dt cm rot ps p).color = p.color ∧
    (updateParticle rA rD rS dt cm rot ps p).size = p.size := by
  simp only [updateParticle]
  split_ifs <;> exact ⟨rfl, rfl⟩

/-- C1: the time-dilation computation does not validate its domain.  With
mass = 50 and observer2 radius = 5 (both inside the UI slider ranges) the
potential is 10, the radicand 1 - 2 * potential * SCALE_FACTOR equals -1,
and calculateRelativisticEffects still returns a plain record whose
timeDilation field is the value 1 / sqrt(-1) - which is NaN in JavaScript -
instead of signalling a typed InvalidDomain error. -/
theorem timeDilation_domain_not_validated :
    tdRadicand ((50 : ℝ) / 5) = -1 ∧
    (calculateRelativisticEffects 50 30 5 120).observer2.potential = 10 ∧
    (calculateRelativisticEffects 50 30 5 120).observer2.timeDilation
      = 1 / Real.sqrt (-1) := by
  refine ⟨by norm_num [tdRadicand, SCALE_FACTOR], ?_, ?_⟩
  · simp only [calculateRelativisticEffects]
    norm_num
  · simp only [calculateRelativisticEffects]
    norm_num [tdRadicand, SCALE_FACTOR]

/-- C3: in the valid domain the redshift formula satisfies the inverse
relationship (1 + redshift(p1, p2, s)) * (1 + redshift(p2, p1, s)) = 1, so
swapping the two observers inverts the redshift consistently. -/
theorem redshift_inverse_relationship (p1 p2 s : ℝ)
    (h1 : 2 * p1 * s < 1) (h2 : 2 * p2 * s < 1) :
    (1 + redshiftFormula p1 p2 s) * (1 + redshiftFormula p2 p1 s) = 1 := by
  have hA : (0 : ℝ) < 1 - 2 * p1 * s := by linarith
  have hB : (0 : ℝ) < 1 - 2 * p2 * s := by linarith
  unfold redshiftFormula
  have e1 : (1 : ℝ) + (Real.sqrt ((1 - 2 * p2 * s) / (1 - 2 * p1 * s)) - 1)
      = Real.sqrt ((1 - 2 * p2 * s) / (1 - 2 * p1 * s)) := by ring
  have e2 : (1 : ℝ) + (Real.sqrt ((1 - 2 * p1 * s) / (1 - 2 * p2 * s)) - 1)
      = Real.sqrt ((1 - 2 * p1 * s) / (1 - 2 * p2 * s)) := by ring
  rw [e1, e2, ← Real.sqrt_mul (by positivity)]
  rw [show (1 - 2 * p2 * s) / (1 - 2 * p1 * s) * ((1 - 2 * p1 * s) / (1 - 2 * p2 * s))
      = 1 by field_simp]
  exact Real.sqrt_one

/-- Witness for C3 at the concrete potentials 1 and 2 with scale factor 0.1. -/
theorem redshift_inverse_relationship_witness :
    2 * (1 : ℝ) * 0.1 < 1 ∧ 2 * (2 : ℝ) * 0.1 < 1 ∧
    (1 + redshiftFormula 1 2 0.1) * (1 + redshiftFormula 2 1 0.1) = 1 :=
  ⟨by norm_num, by norm_num,
    redshift_inverse_relationship 1 2 0.1 (by norm_num) (by norm_num)⟩

/-- C4: the particle integrator preserves the population count exactly: any
number of iterated updateParticles steps returns a list of the same length
as the input, for every random oracle, dt, mass and rotation (a particle
falling below the event horizon is respawned, never removed). -/
theorem updateParticles_population_invariant (rngs : ℕ → ℕ → ℝ × ℝ × ℝ)
    (dt centralMass rotation particleSpeed : ℝ) :
    ∀ (n : ℕ) (particles : List Particle),
      (updateParticlesIter rngs dt centralMass rotation particleSpeed n particles).length
        = particles.length := by
  intro n
  induction n with
  | zero => intro particles; simp [updateParticlesIter]
  | succ n ih =>
      intro particles
      simp only [updateParticlesIter]
      rw [ih, updateParticles, updateParticlesFrom_length]

/-- C6: the binary-orbit state is a pure function of elapsed time, and for
nonnegative initial separation d0 and decay rate k > 0 the separation law
max(minSeparation, d0 * exp(-t * k)) is monotonically non-increasing in t and
bounded below by minSeparation; updateWaves and the merger view both
instantiate this law (minSeparation 2, d0 10 and minSeparation 5, d0 40,
decay rate 0.03). -/
theorem orbitState_pure_separation_monotone (minSeparation d0 k : ℝ)
    (hd0 : 0 ≤ d0) (hk : 0 < k) :
    (∀ t t' : ℝ, t = t' → updateWavesOrbitState t = updateWavesOrbitState t') ∧
    (∀ t : ℝ, updateWavesSourceDistance t = separationLaw 2 10 0.03 t) ∧
    (∀ t : ℝ, mergerSeparation t = separationLaw 5 40 0.03 t) ∧
    (∀ t t' : ℝ, t ≤ t' →
        separationLaw minSeparation d0 k t' ≤ separationLaw minSeparation d0 k t) ∧
    (∀ t : ℝ, minSeparation ≤ separationLaw minSeparation d0 k t) := by
  refine ⟨fun t t' h => by rw [h], fun t => rfl, fun t => rfl, ?_, ?_⟩
  · intro t t' h
    unfold separationLaw
    refine max_le_max le_rfl (mul_le_mul_of_nonneg_left ?_ hd0)
    refine Real.exp_le_exp.mpr ?_
    nlinarith
  · intro t
    exact le_max_left _ _

/-- Witness for C6 at the updateWaves constants d0 = 10, k = 0.03. -/
theorem orbitState_pure_separation_monotone_witness :
    (0 : ℝ) ≤ 10 ∧ (0 : ℝ) < 0.03 ∧ (2 : ℝ) ≤ separationLaw 2 10 0.03 0 :=
  ⟨by norm_num, by norm_num,
    (orbitState_pure_separation_monotone 2 10 0.03 (by norm_num) (by norm_num)).2.2.2.2 0⟩

/-- C9: the fact generator never reports a negative percentage: the
time-dilation and redshift percentages are nonnegative in both branches,
the flipped branches (relativeTimeDilation < 1, redshift < 0) attribute the
slower clock and the redshifted light to Observer 1 and use the absolute
value of the percentage, and the escape velocities the facts print are
nonnegative for every output of calculateRelativisticEffects. -/
theorem generateFacts_percent_nonneg :
    (∀ effects : Effects,
        0 ≤ (timeDilationFactOf effects).percent ∧
        0 ≤ (redshiftFactOf effects).percent ∧
        (effects.relativeTimeDilation < 1 →
          (timeDilationFactOf effects).slowerObserver = 1 ∧
          (timeDilationFactOf effects).percent
            = |(effects.relativeTimeDilation - 1) * 100|) ∧
        (1 < effects.relativeTimeDilation →
          (timeDilationFactOf effects).slowerObserver = 2) ∧
        (effects.redshift < 0 →
          (redshiftFactOf effects).redshiftedObserver = 1 ∧
          (redshiftFactOf effects).percent = |effects.redshift * 100|) ∧
        (0 < effects.redshift → (redshiftFactOf effects).redshiftedObserver = 2)) ∧
    (∀ mass r1 r2 a : ℝ,
        0 ≤ (calculateRelativisticEffects mass r1 r2 a).observer1.escapeVelocity ∧
        0 ≤ (calculateRelativisticEffects mass r1 r2 a).observer2.escapeVelocity) := by
  constructor
  · intro e
    refine ⟨?_, ?_, ?_, ?_, ?_, ?_⟩
    · unfold timeDilationFactOf
      split_ifs with h
      · show 0 ≤ (e.relativeTimeDilation - 1) * 100
        nlinarith
      · exact abs_nonneg _
    · unfold redshiftFactOf
      split_ifs with h
      · show 0 ≤ e.redshift * 100
        nlinarith
      · exact abs_nonneg _
    · intro h
      unfold timeDilationFactOf
      rw [if_neg (by linarith)]
      exact ⟨rfl, rfl⟩
    · intro h
      unfold timeDilationFactOf
      rw [if_pos h]
    · intro h
      unfold redshiftFactOf
      rw [if_neg (by linarith)]
      exact ⟨rfl, rfl⟩
    · intro h
      unfold redshiftFactOf
      rw [if_pos h]
  · intro m r1 r2 a
    constructor
    · simp only [calculateRelativisticEffects]
      exact Real.sqrt_nonneg _
    · simp only [calculateRelativisticEffects]
      exact Real.sqrt_nonneg _

/-- Witness for C9: a record with relativeTimeDilation 1/2 and redshift -1/2
takes the flipped branches and attributes both effects to Observer 1. -/
theorem generateFacts_percent_nonneg_witness :
    testEffects.relativeTimeDilation < 1 ∧
    (timeDilationFactOf testEffects).slowerObserver = 1 ∧
    testEffects.redshift < 0 ∧
    (redshiftFactOf testEffects).redshiftedObserver = 1 := by
  have h1 : testEffects.relativeTimeDilation < 1 := by norm_num [testEffects]
  have h2 : testEffects.redshift < 0 := by norm_num [testEffects]
  exact ⟨h1, ((generateFacts_percent_nonneg.1 testEffects).2.2.1 h1).1, h2,
    ((generateFacts_percent_nonneg.1 testEffects).2.2.2.2.1 h2).1⟩

/-- C10: updateParticles never changes a particle's color or size - on the
orbiting branch and on the respawn branch alike (a respawned particle keeps
the absorbed particle's color and size); consequently the list of
(color, size) pairs is unchanged by a step. -/
theorem updateParticles_color_size_invariant :
    (∀ (rA rD rS dt centralMass rotation particleSpeed : ℝ) (p : Particle),
        (updateParticle rA rD rS dt centralMass rotation particleSpeed p).color = p.color ∧
        (updateParticle rA rD rS dt centralMass rotation particleSpeed p).size = p.size) ∧
    (∀ (rng : ℕ → ℝ × ℝ × ℝ) (dt centralMass rotation particleSpeed : ℝ)
        (particles : List Particle),
        (updateParticles rng particles dt centralMass rotation particleSpeed).map
            (fun p => (p.color, p.size))
          = particles.map fun p => (p.color, p.size)) := by
  constructor
  · exact updateParticle_color_size
  · intro rng dt cm rot ps particles
    rw [updateParticles]
    suffices h : ∀ (k : ℕ) (l : List Particle),
        (updateParticlesFrom rng dt cm rot ps k l).map (fun p => (p.color, p.size))
          = l.map (fun p => (p.color, p.size)) from h 0 particles
    intro k l
    induction l generalizing k with
    | nil => simp [updateParticlesFrom]
    | cons p rest ih =>
        simp [updateParticlesFrom, ih, (updateParticle_color_size _ _ _ _ _ _ _ p).1,
          (updateParticle_color_size _ _ _ _ _ _ _ p).2]

lemma lt_sqrt_of_sq_lt {a y : ℝ} (ha : 0 ≤ a) (h : a ^ 2 < y) : a < Real.sqrt y :=
  (Real.lt_sqrt ha).mpr h

lemma sqrt_lt_of_lt_sq {y b : ℝ} (hb : 0 < b) (h : y < b ^ 2) : Real.sqrt y < b :=
  (Real.sqrt_lt' hb).mpr h

lemma sqrt_14_15_bounds : 0.9660 < Real.sqrt (14 / 15) ∧ Real.sqrt (14 / 15) < 0.9661 :=
  ⟨lt_sqrt_of_sq_lt (by norm_num) (by norm_num),
   sqrt_lt_of_lt_sq (by norm_num) (by norm_num)⟩

lemma sqrt_9_10_bounds : 0.94868 < Real.sqrt (9 / 10) ∧ Real.sqrt (9 / 10) < 0.94869 :=
  ⟨lt_sqrt_of_sq_lt (by norm_num) (by norm_num),
   sqrt_lt_of_lt_sq (by norm_num) (by norm_num)⟩

lemma example_timeDilation1 :
    (calculateRelativisticEffects 10 30 20 120).observer1.timeDilation
      = 1 / Real.sqrt (14 / 15) := by
  simp only [calculateRelativisticEffects]
  norm_num [tdRadicand, SCALE_FACTOR]

lemma example_timeDilation2 :
    (calculateRelativisticEffects 10 30 20 120).observer2.timeDilation
      = 1 / Real.sqrt (9 / 10) := by
  simp only [calculateRelativisticEffects]
  norm_num [tdRadicand, SCALE_FACTOR]

lemma example_relativeTimeDilation :
    (calculateRelativisticEffects 10 30 20 120).relativeTimeDilation
      = Real.sqrt (28 / 27) := by
  have step : (calculateRelativisticEffects 10 30 20 120).relativeTimeDilation
      = (1 / Real.sqrt (9 / 10)) / (1 / Real.sqrt (14 / 15)) := by
    simp only [calculateRelativisticEffects]
    norm_num [tdRadicand, SCALE_FACTOR]
  have h1 : Real.sqrt (9 / 10) ≠ 0 := ne_of_gt (Real.sqrt_pos.mpr (by norm_num))
  have h2 : Real.sqrt (14 / 15) ≠ 0 := ne_of_gt (Real.sqrt_pos.mpr (by norm_num))
  rw [step, show (1 / Real.sqrt (9 / 10)) / (1 / Real.sqrt (14 / 15))
      = Real.sqrt (14 / 15) / Real.sqrt (9 / 10) from by field_simp; ring,
    ← Real.sqrt_div (by norm_num)]
  norm_num

lemma td1_bounds :
    1.0350 < 1 / Real.sqrt (14 / 15) ∧ 1 / Real.sqrt (14 / 15) < 1.0352 := by
  have h := sqrt_14_15_bounds
  have hpos : 0 < Real.sqrt (14 / 15) := Real.sqrt_pos.mpr (by norm_num)
  constructor
  · calc (1.0350 : ℝ) < 1 / 0.9661 := by norm_num
      _ < 1 / Real.sqrt (14 / 15) := one_div_lt_one_div_of_lt hpos h.2
  · calc 1 / Real.sqrt (14 / 15) < 1 / 0.9660 := one_div_lt_one_div_of_lt (by norm_num) h.1
      _ < 1.0352 := by norm_num

lemma td2_bounds :
    1.0540 < 1 / Real.sqrt (9 / 10) ∧ 1 / Real.sqrt (9 / 10) < 1.0542 := by
  have h := sqrt_9_10_bounds
  have hpos : 0 < Real.sqrt (9 / 10) := Real.sqrt_pos.mpr (by norm_num)
  constructor
  · calc (1.0540 : ℝ) < 1 / 0.94869 := by norm_num
      _ < 1 / Real.sqrt (9 / 10) := one_div_lt_one_div_of_lt hpos h.2
  · calc 1 / Real.sqrt (9 / 10) < 1 / 0.94868 := one_div_lt_one_div_of_lt (by norm_num) h.1
      _ < 1.0542 := by norm_num

lemma rel_bounds :
    1.0183 < Real.sqrt (28 / 27) ∧ Real.sqrt (28 / 27) < 1.0184 :=
  ⟨lt_sqrt_of_sq_lt (by norm_num) (by norm_num),
   sqrt_lt_of_lt_sq (by norm_num) (by norm_num)⟩

/-- C2 counterexample: at mass 10, radii 30 and 20 (scale factor 0.1) the
code's timeDilation1 exceeds 1.0345 and its relativeTimeDilation is below
1.0190, so the claimed values timeDilation1 = 1.0339 and
relativeTimeDilation = 1.0195 are wrong (the true values are about 1.0351
and 1.0184). -/
theorem example_effects_claimed_values_refuted :
    1.0345 < (calculateRelativisticEffects 10 30 20 120).observer1.timeDilation ∧
    (calculateRelativisticEffects 10 30 20 120).relativeTimeDilation < 1.0190 := by
  constructor
  · rw [example_timeDilation1]
    linarith [td1_bounds.1]
  · rw [example_relativeTimeDilation]
    linarith [rel_bounds.2]

/-- C2 (amended): for mass 10, observer radii 30 and 20, scale factor 0.1,
calculateRelativisticEffects returns potential1 = 1/3, potential2 = 1/2,
timeDilation1 in (1.0350, 1.0352) - so about 1.0351, not 1.0339 -
timeDilation2 in (1.0540, 1.0542) - about 1.0541 as claimed -
relativeTimeDilation in (1.0183, 1.0184) - about 1.0184, not 1.0195 -
and relativeTimeDilation > 1, so observer 2's clock runs slower. -/
theorem example_relativistic_effects_values :
    (calculateRelativisticEffects 10 30 20 120).observer1.potential = 1 / 3 ∧
    (calculateRelativisticEffects 10 30 20 120).observer2.potential = 1 / 2 ∧
    (1.0350 < (calculateRelativisticEffects 10 30 20 120).observer1.timeDilation ∧
      (calculateRelativisticEffects 10 30 20 120).observer1.timeDilation < 1.0352) ∧
    (1.0540 < (calculateRelativisticEffects 10 30 20 120).observer2.timeDilation ∧
      (calculateRelativisticEffects 10 30 20 120).observer2.timeDilation < 1.0542) ∧
    (1.0183 < (calculateRelativisticEffects 10 30 20 120).relativeTimeDilation ∧
      (calculateRelativisticEffects 10 30 20 120).relativeTimeDilation < 1.0184) ∧
    1 < (calculateRelativisticEffects 10 30 20 120).relativeTimeDilation := by
  refine ⟨?_, ?_, ?_, ?_, ?_, ?_⟩
  · simp only [calculateRelativisticEffects]; norm_num
  · simp only [calculateRelativisticEffects]; norm_num
  · rw [example_timeDilation1]; exact td1_bounds
  · rw [example_timeDilation2]; exact td2_bounds
  · rw [example_relativeTimeDilation]; exact rel_bounds
  · rw [example_relativeTimeDilation]
    exact lt_sqrt_of_sq_lt (by norm_num) (by norm_num)

lemma sqrt_9975_bounds : 9.9874 < Real.sqrt 99.75 ∧ Real.sqrt 99.75 < 9.9875 :=
  ⟨lt_sqrt_of_sq_lt (by norm_num) (by norm_num),
   sqrt_lt_of_lt_sq (by norm_num) (by norm_num)⟩

lemma kerrHorizonRadius_example :
    kerrHorizonRadius 10 0.5 = (10 + Real.sqrt 99.75) * SCALE_FACTOR := by
  unfold kerrHorizonRadius kerrRPlus
  norm_num

/-- C8 counterexample: the rendered Kerr outer-horizon radius at mass 10,
spin 0.5, scale factor 0.1 is below 1.999, so the claimed value 1.9994 is
wrong (the true value is (10 + sqrt 99.75) / 10, about 1.99875). -/
theorem kerr_outer_horizon_claimed_value_refuted :
    kerrHorizonRadius 10 0.5 < 1.999 := by
  rw [kerrHorizonRadius_example]
  have h := sqrt_9975_bounds.2
  rw [SCALE_FACTOR]
  nlinarith

/-- C8 (amended): the Kerr outer-horizon radius is
(mass + sqrt(mass^2 - spin^2)) * SCALE_FACTOR for all inputs; at mass 10,
spin 0.5 it lies in (1.9987, 1.9988) - about 1.9987, not 1.9994 - and in
the extremal case spin = mass = 10 the outer and inner radii both equal
mass * SCALE_FACTOR = 1 exactly. -/
theorem kerr_horizon_radius_values :
    (∀ mass spin : ℝ,
        kerrHorizonRadius mass spin
          = (mass + Real.sqrt (mass * mass - spin * spin)) * SCALE_FACTOR) ∧
    (1.9987 < kerrHorizonRadius 10 0.5 ∧ kerrHorizonRadius 10 0.5 < 1.9988) ∧
    kerrHorizonRadius 10 10 = 1 ∧
    kerrRMinus 10 10 * SCALE_FACTOR = 1 := by
  refine ⟨fun mass spin => rfl, ⟨?_, ?_⟩, ?_, ?_⟩
  · rw [kerrHorizonRadius_example, SCALE_FACTOR]
    nlinarith [sqrt_9975_bounds.1]
  · rw [kerrHorizonRadius_example, SCALE_FACTOR]
    nlinarith [sqrt_9975_bounds.2]
  · unfold kerrHorizonRadius kerrRPlus
    rw [show (10 * 10 - 10 * 10 : ℝ) = 0 by norm_num, Real.sqrt_zero, SCALE_FACTOR]
    norm_num
  · unfold kerrRMinus
    rw [show (10 * 10 - 10 * 10 : ℝ) = 0 by norm_num, Real.sqrt_zero, SCALE_FACTOR]
    norm_num

/-- A fixed particle with an empty trail, used to witness the trail bound. -/
noncomputable def testParticle : Particle :=
  { x := 30, y := 0, vx := 0, vy := 0.3, trail := [], color := 0, size := 1 }

lemma updateParticle_trail_le (rA rD rS dt cm rot ps : ℝ) (p : Particle)
    (h : p.trail.length ≤ 20) :
    (updateParticle rA rD rS dt cm rot ps p).trail.length ≤ 20 := by
  simp only [updateParticle]
  split_ifs <;> simp_all

lemma updateParticlesFrom_trail_le (rng : ℕ → ℝ × ℝ × ℝ) (dt cm rot ps : ℝ) :
    ∀ (k : ℕ) (l : List Particle), (∀ p ∈ l, p.trail.length ≤ 20) →
      ∀ q ∈ updateParticlesFrom rng dt cm rot ps k l, q.trail.length ≤ 20 := by
  intro k l
  induction l generalizing k with
  | nil => intro _ q hq; simp [updateParticlesFrom] at hq
  | cons p rest ih =>
      intro h q hq
      simp only [updateParticlesFrom, List.mem_cons] at hq
      rcases hq with rfl | hq
      · exact updateParticle_trail_le _ _ _ _ _ _ _ p (h p (by simp))
      · exact ih (k + 1) (fun p' hp' => h p' (by simp [hp'])) q hq

lemma updateParticlesIter_trail_le (rngs : ℕ → ℕ → ℝ × ℝ × ℝ) (dt cm rot ps : ℝ) :
    ∀ (n : ℕ) (particles : List Particle), (∀ p ∈ particles, p.trail.length ≤ 20) →
      ∀ q ∈ updateParticlesIter rngs dt cm rot ps n particles, q.trail.length ≤ 20 := by
  intro n
  induction n with
  | zero =>
      intro particles h q hq
      simp only [updateParticlesIter] at hq
      exact h q hq
  | succ n ih =>
      intro particles h q hq
      simp only [updateParticlesIter, updateParticles] at hq
      exact ih _ (updateParticlesFrom_trail_le _ _ _ _ _ 0 particles h) q hq

lemma initParticles_trail_eq_nil (rng : ℕ → ℝ × ℝ × ℝ × ℝ) (particleCount : ℕ)
    (particleSpeed : ℝ) :
    ∀ p ∈ initParticles rng particleCount particleSpeed, p.trail = [] := by
  intro p hp
  simp only [initParticles, List.mem_map] at hp
  obtain ⟨i, _, rfl⟩ := hp
  rfl

/-- C5: the trail bound is an invariant of the particle integrator: if every
particle's trail has at most 20 entries then after any number of
updateParticles steps every trail still has at most 20 entries (the orbiting
branch drops the oldest entry when pushing would exceed the bound, and the
respawn branch clears the trail); and starting from initParticles, whose
trails are empty, no particle's trail ever exceeds 20 entries. -/
theorem particle_trail_bounded :
    (∀ (rngs : ℕ → ℕ → ℝ × ℝ × ℝ) (dt centralMass rotation particleSpeed : ℝ)
        (n : ℕ) (particles : List Particle),
        (∀ p ∈ particles, p.trail.length ≤ 20) →
        ∀ q ∈ updateParticlesIter rngs dt centralMass rotation particleSpeed n particles,
          q.trail.length ≤ 20) ∧
    (∀ (rng : ℕ → ℝ × ℝ × ℝ × ℝ) (particleCount : ℕ)
        (rngs : ℕ → ℕ → ℝ × ℝ × ℝ) (dt centralMass rotation particleSpeed : ℝ) (n : ℕ),
        ∀ q ∈ updateParticlesIter rngs dt centralMass rotation particleSpeed n
            (initParticles rng particleCount particleSpeed),
          q.trail.length ≤ 20) := by
  constructor
  · intro rngs dt cm rot ps n particles h
    exact updateParticlesIter_trail_le rngs dt cm rot ps n particles h
  · intro rng pc rngs dt cm rot ps n
    refine updateParticlesIter_trail_le rngs dt cm rot ps n _ ?_
    intro p hp
    rw [initParticles_trail_eq_nil rng pc ps p hp]
    simp

/-- Witness for C5: a singleton population with an empty trail satisfies the
hypothesis, and after three steps every trail is still at most 20 long. -/
theorem particle_trail_bounded_witness :
    (∀ p ∈ [testParticle], p.trail.length ≤ 20) ∧
    ∀ q ∈ updateParticlesIter (fun _ _ => (0, 0, 0)) 0.1 10 0 0.3 3 [testParticle],
      q.trail.length ≤ 20 := by
  have h : ∀ p ∈ [testParticle], p.trail.length ≤ 20 := by
    intro p hp
    simp only [List.mem_singleton] at hp
    subst hp
    simp [testParticle]
  exact ⟨h, particle_trail_bounded.1 (fun _ _ => (0, 0, 0)) 0.1 10 0 0.3 3 [testParticle] h⟩

lemma rayLoop_radius_ge (mass rotation : ℝ) :
    ∀ (fuel : ℕ) (x y vx vy : ℝ),
      ∀ p ∈ rayLoop mass rotation fuel x y vx vy,
        2.5 ≤ Real.sqrt (p.x * p.x + p.y * p.y) := by
  intro fuel
  induction fuel with
  | zero => intro x y vx vy p hp; simp [rayLoop] at hp
  | succ fuel ih =>
      intro x y vx vy p hp
      simp only [rayLoop] at hp
      split_ifs at hp with hlt
      · simp at hp
      · simp only [List.mem_cons] at hp
        rcases hp with rfl | hp
        · exact not_lt.mp hlt
        · exact ih _ _ _ _ p hp

lemma radial_norm (angle d : ℝ) (hd : 0 ≤ d) :
    Real.sqrt (d * Real.cos angle * (d * Real.cos angle)
      + d * Real.sin angle * (d * Real.sin angle)) = d := by
  have h : d * Real.cos angle * (d * Real.cos angle)
      + d * Real.sin angle * (d * Real.sin angle)
      = d ^ 2 * (Real.sin angle ^ 2 + Real.cos angle ^ 2) := by ring
  rw [h, Real.sin_sq_add_cos_sq, mul_one, Real.sqrt_sq hd]

lemma rayVMag_radial (angle d : ℝ) (hd : 0 < d) :
    rayVMag 10 0 (d * Real.cos angle) (d * Real.sin angle)
      (-Real.cos angle * 0.5) (-Real.sin angle * 0.5) = 0.5 + 10 / d ^ 2 := by
  have hd' : d ≠ 0 := hd.ne'
  have hK : (0 : ℝ) ≤ 0.5 + 10 / d ^ 2 := by positivity
  simp only [rayVMag, lt_self_iff_false, if_false, radial_norm angle d hd.le]
  have e1 : -Real.cos angle * 0.5 - d * Real.cos angle * (10 / (d * d * d))
      = -((0.5 + 10 / d ^ 2) * Real.cos angle) := by field_simp; ring
  have e2 : -Real.sin angle * 0.5 - d * Real.sin angle * (10 / (d * d * d))
      = -((0.5 + 10 / d ^ 2) * Real.sin angle) := by field_simp; ring
  rw [e1, e2]
  have h : -((0.5 + 10 / d ^ 2) * Real.cos angle) * -((0.5 + 10 / d ^ 2) * Real.cos angle)
      + -((0.5 + 10 / d ^ 2) * Real.sin angle) * -((0.5 + 10 / d ^ 2) * Real.sin angle)
      = (0.5 + 10 / d ^ 2) ^ 2 * (Real.sin angle ^ 2 + Real.cos angle ^ 2) := by ring
  rw [h, Real.sin_sq_add_cos_sq, mul_one, Real.sqrt_sq hK]

lemma rayVelocityUpdate_radial (angle d : ℝ) (hd : 0 < d) :
    rayVelocityUpdate 10 0 (d * Real.cos angle) (d * Real.sin angle)
      (-Real.cos angle * 0.5) (-Real.sin angle * 0.5)
      = (-Real.cos angle * 0.5, -Real.sin angle * 0.5) := by
  have hd' : d ≠ 0 := hd.ne'
  have hK : (0 : ℝ) < 0.5 + 10 / d ^ 2 := by positivity
  simp only [rayVelocityUpdate, lt_self_iff_false, if_false,
    rayVMag_radial angle d hd, radial_norm angle d hd.le, Prod.mk.injEq]
  have e1 : -Real.cos angle * 0.5 - d * Real.cos angle * (10 / (d * d * d))
      = -((0.5 + 10 / d ^ 2) * Real.cos angle) := by field_simp; ring
  have e2 : -Real.sin angle * 0.5 - d * Real.sin angle * (10 / (d * d * d))
      = -((0.5 + 10 / d ^ 2) * Real.sin angle) := by field_simp; ring
  rw [e1, e2]
  have hcomp : ∀ w : ℝ, -((0.5 + 10 / d ^ 2) * w) / (0.5 + 10 / d ^ 2) * 0.5 = -w * 0.5 := by
    intro w
    field_simp
    ring
  exact ⟨hcomp _, hcomp _⟩

lemma rayLoop_radial (angle : ℝ) :
    ∀ (fuel : ℕ) (c : ℝ), 0.5 ≤ c →
      rayLoop 10 0 fuel (c * Real.cos angle) (c * Real.sin angle)
          (-Real.cos angle * 0.5) (-Real.sin angle * 0.5)
        = radialSamples angle fuel c ∧
      rayLoopDefined 10 0 fuel (c * Real.cos angle) (c * Real.sin angle)
          (-Real.cos angle * 0.5) (-Real.sin angle * 0.5) := by
  intro fuel
  induction fuel with
  | zero => intro c hc; exact ⟨rfl, trivial⟩
  | succ fuel ih =>
      intro c hc
      have hd0 : (0 : ℝ) ≤ c - 0.5 := by linarith
      have hx1 : c * Real.cos angle + -Real.cos angle * 0.5
          = (c - 0.5) * Real.cos angle := by ring
      have hy1 : c * Real.sin angle + -Real.sin angle * 0.5
          = (c - 0.5) * Real.sin angle := by ring
      simp only [rayLoop, rayLoopDefined, radialSamples, hx1, hy1,
        radial_norm angle (c - 0.5) hd0]
      by_cases hlt : c - 0.5 < 2.5
      · simp [hlt]
      · have hdpos : (0 : ℝ) < c - 0.5 := by push_neg at hlt; linarith
        simp only [if_neg hlt, rayVelocityUpdate_radial angle (c - 0.5) hdpos]
        obtain ⟨he, hdef⟩ := ih (c - 0.5) (by push_neg at hlt; linarith)
        refine ⟨by rw [he], ne_of_gt hdpos, ?_, hdef⟩
        rw [rayVMag_radial angle (c - 0.5) hdpos]
        positivity

lemma radialSamples_length_eq (angle : ℝ) :
    ∀ (n fuel : ℕ), n ≤ fuel →
      (radialSamples angle fuel (2.5 + (n : ℝ) / 2)).length = n := by
  intro n
  induction n with
  | zero =>
      intro fuel hf
      cases fuel with
      | zero => rfl
      | succ fuel =>
          simp only [radialSamples, Nat.cast_zero]
          rw [if_pos (by norm_num)]
          rfl
  | succ m ih =>
      intro fuel hf
      cases fuel with
      | zero => omega
      | succ fuel =>
          have hm0 : (0 : ℝ) ≤ (m : ℝ) := Nat.cast_nonneg m
          have harg : 2.5 + ((m + 1 : ℕ) : ℝ) / 2 - 0.5 = 2.5 + (m : ℝ) / 2 := by
            push_cast
            ring
          have hguard : ¬ (2.5 + ((m + 1 : ℕ) : ℝ) / 2 - 0.5 < 2.5) := by
            push_cast
            push_neg
            linarith
          simp only [radialSamples]
          rw [if_neg hguard]
          simp only [List.length_cons, harg]
          rw [ih fuel (by omega)]

lemma calculateLightPath_example (angle : ℝ) :
    (calculateLightPath 10 0 30 angle).length = 56 ∧
    (∀ p ∈ (calculateLightPath 10 0 30 angle).tail,
        2.5 ≤ Real.sqrt (p.x * p.x + p.y * p.y)) ∧
    calculateLightPathDefined 10 0 30 angle := by
  obtain ⟨heq, hdef⟩ := rayLoop_radial angle 100 30 (by norm_num)
  refine ⟨?_, ?_, ?_, ?_⟩
  · simp only [calculateLightPath, List.length_cons]
    rw [heq, show (30 : ℝ) = 2.5 + ((55 : ℕ) : ℝ) / 2 by norm_num,
      radialSamples_length_eq angle 55 100 (by norm_num)]
  · intro p hp
    simp only [calculateLightPath, List.tail_cons] at hp
    exact rayLoop_radius_ge 10 0 100 _ _ _ _ p hp
  · show Real.sqrt (30 * Real.cos angle * (30 * Real.cos angle)
        + 30 * Real.sin angle * (30 * Real.sin angle)) ≠ 0
    rw [radial_norm angle 30 (by norm_num)]
    norm_num
  · exact hdef

/-- C7: light rays are truncated at the horizon and NaN-free: for all
parameters, every sample a traced ray emits after its start point has radius
at least 2.5 (the loop breaks before emitting once the radius falls below
2.5); and for the end-to-end example mass 10, rotation 0, source radius 30,
every one of the 8 rays has exactly 56 samples (start plus 55 loop samples,
truncated well before the 100-step budget) and is division-defined: every
denominator the JavaScript loop divides by while producing these samples
(the radius used in -mass / r and the velocity magnitude used for
renormalization) is nonzero, so no emitted coordinate is NaN. -/
theorem lightPaths_truncated_before_horizon :
    (∀ (mass rotation sourceDistance : ℝ) (numPaths : ℕ),
        ∀ path ∈ calculateLightPaths mass rotation sourceDistance numPaths,
          ∀ p ∈ path.tail, 2.5 ≤ Real.sqrt (p.x * p.x + p.y * p.y)) ∧
    (∀ path ∈ calculateLightPaths 10 0 30 8,
        path.length = 56 ∧
        ∀ p ∈ path.tail, 2.5 ≤ Real.sqrt (p.x * p.x + p.y * p.y)) ∧
    (∀ i ∈ List.range 8,
        calculateLightPathDefined 10 0 30 ((i : ℝ) * (2 * Real.pi) / ((8 : ℕ) : ℝ))) := by
  have hgen : ∀ (mass rotation sourceDistance : ℝ) (numPaths : ℕ),
      ∀ path ∈ calculateLightPaths mass rotation sourceDistance numPaths,
        ∀ p ∈ path.tail, 2.5 ≤ Real.sqrt (p.x * p.x + p.y * p.y) := by
    intro mass rotation sourceDistance numPaths path hpath p hp
    simp only [calculateLightPaths, List.mem_map] at hpath
    obtain ⟨i, _, rfl⟩ := hpath
    simp only [calculateLightPath, List.tail_cons] at hp
    exact rayLoop_radius_ge mass rotation 100 _ _ _ _ p hp
  refine ⟨hgen, ?_, ?_⟩
  · intro path hpath
    simp only [calculateLightPaths, List.mem_map] at hpath
    obtain ⟨i, _, rfl⟩ := hpath
    obtain ⟨hlen, htail, _⟩ := calculateLightPath_example ((i : ℝ) * (2 * Real.pi) / ((8 : ℕ) : ℝ))
    exact ⟨hlen, htail⟩
  · intro i _
    exact (calculateLightPath_example ((i : ℝ) * (2 * Real.pi) / ((8 : ℕ) : ℝ))).2.2

/-- Witness for C7: the ray at angle index 0 belongs to the traced family
and has exactly 56 samples. -/
theorem lightPaths_truncated_before_horizon_witness :
    calculateLightPath 10 0 30 (((0 : ℕ) : ℝ) * (2 * Real.pi) / ((8 : ℕ) : ℝ))
      ∈ calculateLightPaths 10 0 30 8 ∧
    (calculateLightPath 10 0 30
        (((0 : ℕ) : ℝ) * (2 * Real.pi) / ((8 : ℕ) : ℝ))).length = 56 := by
  have hmem : calculateLightPath 10 0 30 (((0 : ℕ) : ℝ) * (2 * Real.pi) / ((8 : ℕ) : ℝ))
      ∈ calculateLightPaths 10 0 30 8 := by
    have h := List.mem_map_of_mem
      (fun i : ℕ => calculateLightPath 10 0 30 ((i : ℝ) * (2 * Real.pi) / ((8 : ℕ) : ℝ)))
      (show (0 : ℕ) ∈ List.range 8 by simp)
    exact h
  exact ⟨hmem, (lightPaths_truncated_before_horizon.2.1 _ hmem).1⟩

end RelViz
